import Mathlib

/-!
Verification development for two modules of grist-core:

* `BehavioralPromptsManager` (src/unnamed/part_000): a client-side manager for
  first-time tip popups, embedded here as an explicit state machine.
* The REST API client classes `UserAPIImpl`, `DocWorkerAPIImpl`, `DocAPIImpl`
  (src/app/common/declarations.d.ts), embedded as functions from method
  arguments to the list of HTTP requests a call issues.
-/

namespace Grist

/-! ## Part 1: the behavioral-prompts (tip) manager

The prompt type `BehavioralPrompt` is a string enumeration in the real code
(app/common/Prefs); we model prompts as strings.  `BehavioralPrompt.guard`
(defined outside the excerpt) filters strings that are not members of the
enumeration out of the stored preference; we treat every modelled prompt as a
valid member, so the filter is the identity here.  DOM elements are modelled by
numeric identifiers. -/

abbrev BehavioralPrompt := String

/-- `AttachOptions` from the source.  `popupOptions` and `onDispose` only
configure the external popup library and are irrelevant to the state machine,
so only `hideArrow` is carried. -/
structure AttachOptions where
  hideArrow : Bool := false
  deriving DecidableEq

/-- The `behavioralPrompts` user preference, with its default value
`\x7b dontShowTips: false, dismissedTips: [] \x7d`. -/
structure BehavioralPromptPrefs where
  dontShowTips : Bool
  dismissedTips : List BehavioralPrompt
  deriving DecidableEq

/-- One entry of `_queuedTips` (interface `QueuedTip` in the source). -/
structure QueuedTip where
  prompt : BehavioralPrompt
  refElement : Nat
  options : AttachOptions
  deriving DecidableEq

/-- Ambient conditions read by `_queueTip`: `getGristConfig().survey` and
`isNarrowScreen()` (both defined outside the excerpt; modelled as fixed
booleans for a run). -/
structure TipEnv where
  survey : Bool
  narrowScreen : Bool
  deriving DecidableEq

/-- The mutable state of a `BehavioralPromptsManager`: the `_prefs` observable
and the `_queuedTips` array.  `shownPopup` is ghost state recording which
queued tip currently has an open popup (the popup is created by `_showTip` and
cleared when it is disposed); it does not correspond to a field of the class
but to the popup control `ctl` being live. -/
structure ManagerState where
  _prefs : BehavioralPromptPrefs
  _queuedTips : List QueuedTip
  shownPopup : Option QueuedTip
  deriving DecidableEq

namespace BehavioralPromptsManager

/-- `new Set(list)` in JavaScript: keep the first occurrence of each element,
in order.  `seen` accumulates the elements already emitted. -/
def jsSetOfList (seen : List BehavioralPrompt) :
    List BehavioralPrompt → List BehavioralPrompt
  | [] => []
  | x :: xs =>
    if x ∈ seen then jsSetOfList seen xs
    else x :: jsSetOfList (x :: seen) xs

/-- `set.add(p)` followed by `[...set]`: append `p` when absent. -/
def jsSetAdd (l : List BehavioralPrompt) (p : BehavioralPrompt) :
    List BehavioralPrompt :=
  if p ∈ l then l else l ++ [p]

/-- `hasSeenTip`: membership of the prompt in the dismissed-tips set computed
from the preference. -/
def hasSeenTip (st : ManagerState) (prompt : BehavioralPrompt) : Bool :=
  st._prefs.dismissedTips.contains prompt

/-- `_markAsSeen`: rebuild the dismissed set from the stored list, add the
prompt, and store the spread of the set back into the preference. -/
def _markAsSeen (st : ManagerState) (prompt : BehavioralPrompt) : ManagerState :=
  { st with _prefs := { st._prefs with
      dismissedTips := jsSetAdd (jsSetOfList [] st._prefs.dismissedTips) prompt } }

/-- `_dontShowTips`: set the `dontShowTips` preference and drop every queued
tip. -/
def _dontShowTips (st : ManagerState) : ManagerState :=
  { st with
    _prefs := { st._prefs with dontShowTips := true },
    _queuedTips := [] }

/-- `_showTip`: open a popup for the tip.  The second component of the result
is the list of show events the call emits (always exactly this tip). -/
def _showTip (st : ManagerState) (tip : QueuedTip) :
    ManagerState × List QueuedTip :=
  ({ st with shownPopup := some tip }, [tip])

/-- `_showNextQueuedTip`: `shift()` the queue, and show the new head if the
queue is nonempty. -/
def _showNextQueuedTip (st : ManagerState) : ManagerState × List QueuedTip :=
  let queued := st._queuedTips.tail
  let st' := { st with _queuedTips := queued, shownPopup := none }
  match queued with
  | [] => (st', [])
  | nextTip :: _ => _showTip st' nextTip

/-- `_queueTip`: return unchanged when surveying is off, the screen is narrow,
tips are globally disabled, or the prompt was dismissed before; otherwise push
the tip and show it when it is the only queued tip. -/
def _queueTip (env : TipEnv) (st : ManagerState) (refElement : Nat)
    (prompt : BehavioralPrompt) (options : AttachOptions) :
    ManagerState × List QueuedTip :=
  if !env.survey || env.narrowScreen || st._prefs.dontShowTips
      || hasSeenTip st prompt then
    (st, [])
  else
    let tip : QueuedTip := ⟨prompt, refElement, options⟩
    let queued := st._queuedTips ++ [tip]
    let st' := { st with _queuedTips := queued }
    if queued.length > 1 then (st', [])
    else _showTip st' tip

/-- Public `showTip`: delegates to `_queueTip`. -/
def showTip (env : TipEnv) (st : ManagerState) (refElement : Nat)
    (prompt : BehavioralPrompt) (options : AttachOptions) :
    ManagerState × List QueuedTip :=
  _queueTip env st refElement prompt options

/-- Public `attachTip`: returns a function of the element that delegates to
`_queueTip`. -/
def attachTip (env : TipEnv) (st : ManagerState) (prompt : BehavioralPrompt)
    (options : AttachOptions) (element : Nat) :
    ManagerState × List QueuedTip :=
  _queueTip env st element prompt options

/-- Closing the open popup.  Per the source, the close handler receives the
state of the popup's "don't show tips" checkbox, runs `_dontShowTips` when it
was checked, then `_markAsSeen(prompt)` for the shown prompt; disposal of the
popup then runs `_showNextQueuedTip`.  When no popup is open there is nothing
to close. -/
def closePopup (st : ManagerState) (dontShowTips : Bool) :
    ManagerState × List QueuedTip :=
  match st.shownPopup with
  | none => (st, [])
  | some tip =>
    let st1 := if dontShowTips then _dontShowTips st else st
    let st2 := _markAsSeen st1 tip.prompt
    _showNextQueuedTip st2

/-- The events driving the manager in the single-threaded UI event loop. -/
inductive TipEvent where
  | queueTip (refElement : Nat) (prompt : BehavioralPrompt)
      (options : AttachOptions)
  | closePopup (dontShowTips : Bool)
  deriving DecidableEq

/-- One transition of the manager; the second component is the list of tips
shown during the transition. -/
def step (env : TipEnv) (st : ManagerState) :
    TipEvent → ManagerState × List QueuedTip
  | .queueTip r p o => _queueTip env st r p o
  | .closePopup d => closePopup st d

/-- Run a list of events, accumulating the show log. -/
def run (env : TipEnv) (st : ManagerState) :
    List TipEvent → ManagerState × List QueuedTip
  | [] => (st, [])
  | e :: es =>
    let r1 := step env st e
    let r2 := run env r1.fst es
    (r2.fst, r1.snd ++ r2.snd)

/-- A fresh manager: stored preferences, no queued tips, no open popup. -/
def initState (prefs : BehavioralPromptPrefs) : ManagerState :=
  ⟨prefs, [], none⟩

/-- Reachability of a state from a start state by some event sequence. -/
def ReachableFrom (env : TipEnv) (s0 s : ManagerState) : Prop :=
  ∃ evs, (run env s0 evs).fst = s

/-- Reachability from a fresh manager over stored preferences `prefs`. -/
def Reachable (env : TipEnv) (prefs : BehavioralPromptPrefs)
    (s : ManagerState) : Prop :=
  ReachableFrom env (initState prefs) s

/-! ### Basic lemmas about the tip manager -/

theorem mem_jsSetOfList (q : BehavioralPrompt) :
    ∀ (l seen : List BehavioralPrompt),
      q ∈ jsSetOfList seen l ↔ (q ∈ l ∧ q ∉ seen) := by
  intro l
  induction l with
  | nil => intro seen; simp [jsSetOfList]
  | cons x xs ih =>
    intro seen
    simp only [jsSetOfList]
    split
    · rw [ih]
      simp only [List.mem_cons]
      constructor
      · rintro ⟨hm, hns⟩; exact ⟨Or.inr hm, hns⟩
      · rintro ⟨hor, hns⟩
        rcases hor with rfl | hm
        · exact absurd (by assumption) hns
        · exact ⟨hm, hns⟩
    · rw [List.mem_cons, ih]
      simp only [List.mem_cons]
      constructor
      · rintro (rfl | ⟨hm, hns⟩)
        · exact ⟨Or.inl rfl, by assumption⟩
        · exact ⟨Or.inr hm, fun hq => hns (Or.inr hq)⟩
      · rintro ⟨rfl | hm, hns⟩
        · exact Or.inl rfl
        · by_cases hqx : q = x
          · exact Or.inl hqx
          · exact Or.inr ⟨hm, fun hq => by
              rcases hq with h | h
              · exact hqx h
              · exact hns h⟩

theorem mem_jsSetAdd (l : List BehavioralPrompt) (p q : BehavioralPrompt) :
    q ∈ jsSetAdd l p ↔ (q ∈ l ∨ q = p) := by
  simp only [jsSetAdd]
  split
  · constructor
    · exact Or.inl
    · rintro (hm | rfl)
      · exact hm
      · assumption
  · simp [List.mem_append]

theorem mem_markAsSeen (st : ManagerState) (p q : BehavioralPrompt) :
    q ∈ (_markAsSeen st p)._prefs.dismissedTips
      ↔ (q ∈ st._prefs.dismissedTips ∨ q = p) := by
  show q ∈ jsSetAdd (jsSetOfList [] st._prefs.dismissedTips) p
    ↔ (q ∈ st._prefs.dismissedTips ∨ q = p)
  rw [mem_jsSetAdd, mem_jsSetOfList]
  simp

/-- `_queueTip` never changes the preferences. -/
theorem queueTip_prefs (env : TipEnv) (st : ManagerState) (r : Nat)
    (p : BehavioralPrompt) (o : AttachOptions) :
    (_queueTip env st r p o).fst._prefs = st._prefs := by
  simp only [_queueTip, _showTip]
  split
  · rfl
  · split <;> rfl

/-- `_showNextQueuedTip` never changes the preferences. -/
theorem showNext_prefs (st : ManagerState) :
    (_showNextQueuedTip st).fst._prefs = st._prefs := by
  simp only [_showNextQueuedTip, _showTip]
  split <;> rfl

/-- No step removes a prompt from the dismissed-tips preference. -/
theorem dismissed_mono_step (env : TipEnv) (st : ManagerState) (e : TipEvent)
    (q : BehavioralPrompt) (h : q ∈ st._prefs.dismissedTips) :
    q ∈ (step env st e).fst._prefs.dismissedTips := by
  cases e with
  | queueTip r p o =>
    rw [step, queueTip_prefs]
    exact h
  | closePopup d =>
    rw [step]
    simp only [closePopup]
    split
    · exact h
    · rw [showNext_prefs, mem_markAsSeen]
      cases d <;> simp only [_dontShowTips] <;> exact Or.inl h

/-- No run removes a prompt from the dismissed-tips preference. -/
theorem dismissed_mono_run (env : TipEnv) (evs : List TipEvent) :
    ∀ (st : ManagerState) (q : BehavioralPrompt),
      q ∈ st._prefs.dismissedTips →
      q ∈ (run env st evs).fst._prefs.dismissedTips := by
  induction evs with
  | nil => intro st q h; exact h
  | cons e es ih =>
    intro st q h
    exact ih (step env st e).fst q (dismissed_mono_step env st e q h)

/-- After `_showNextQueuedTip` the open popup is exactly the queue head. -/
theorem showNext_inv (st : ManagerState) :
    (_showNextQueuedTip st).fst.shownPopup
      = (_showNextQueuedTip st).fst._queuedTips.head? := by
  simp only [_showNextQueuedTip, _showTip]
  split <;> simp_all

/-- Each step preserves the invariant that the open popup is the queue head. -/
theorem inv_step (env : TipEnv) (st : ManagerState) (e : TipEvent)
    (h : st.shownPopup = st._queuedTips.head?) :
    (step env st e).fst.shownPopup = (step env st e).fst._queuedTips.head? := by
  cases e with
  | queueTip r p o =>
    rw [step]
    simp only [_queueTip, _showTip]
    split
    · exact h
    · split
      · cases hq : st._queuedTips with
        | nil => simp [hq] at *
        | cons x xs => simp [hq] at h ⊢; exact h
      · cases hq : st._queuedTips with
        | nil => simp [hq]
        | cons x xs => simp [hq] at *
  | closePopup d =>
    rw [step]
    simp only [closePopup]
    split
    · exact h
    · exact showNext_inv _

/-- Each run preserves the popup-is-queue-head invariant. -/
theorem inv_run (env : TipEnv) (evs : List TipEvent) :
    ∀ st : ManagerState, st.shownPopup = st._queuedTips.head? →
      (run env st evs).fst.shownPopup
        = (run env st evs).fst._queuedTips.head? := by
  induction evs with
  | nil => intro st h; exact h
  | cons e es ih =>
    intro st h
    exact ih (step env st e).fst (inv_step env st e h)

/-- With tips globally disabled, an empty queue and no popup, every step is a
no-op that shows nothing. -/
theorem frozen_step (env : TipEnv) (st : ManagerState) (e : TipEvent)
    (h1 : st._prefs.dontShowTips = true) (h2 : st.shownPopup = none) :
    step env st e = (st, []) := by
  cases e with
  | queueTip r p o =>
    rw [step]
    simp only [_queueTip, h1]
    simp
  | closePopup d =>
    rw [step]
    simp only [closePopup, h2]

/-- With tips globally disabled, an empty queue and no popup, every run leaves
the state unchanged and shows nothing. -/
theorem frozen_run (env : TipEnv) (evs : List TipEvent) :
    ∀ st : ManagerState, st._prefs.dontShowTips = true →
      st.shownPopup = none → run env st evs = (st, []) := by
  induction evs with
  | nil => intro st _ _; rfl
  | cons e es ih =>
    intro st h1 h2
    show (let r1 := step env st e
          let r2 := run env r1.fst es
          (r2.fst, r1.snd ++ r2.snd)) = (st, [])
    rw [frozen_step env st e h1 h2]
    simp only []
    rw [ih st h1 h2]
    rfl

/-! ### Demo values used by witnesses and counterexamples -/

/-- An environment with surveying enabled on a wide screen. -/
def tipEnvDemo : TipEnv := ⟨true, false⟩

/-- Default stored preferences. -/
def tipPrefsDemo : BehavioralPromptPrefs := ⟨false, []⟩

/-- A trace queueing the same prompt on two elements, then closing the first
popup normally. -/
def tipTraceDemo : List TipEvent :=
  [.queueTip 1 "add-new" ⟨false⟩, .queueTip 2 "add-new" ⟨false⟩,
   .closePopup false]

/-- A manager state with one queued tip whose popup is open. -/
def tipStDemo : ManagerState :=
  ⟨⟨false, []⟩, [⟨"a", 1, ⟨false⟩⟩], some ⟨"a", 1, ⟨false⟩⟩⟩

/-! ### Claim theorems about the tip manager -/

/-- Claim C3, counterexample.  The claim says a tip dismissed in the past is
never shown again.  In the trace `tipTraceDemo` the prompt "add-new" is queued
on two elements; closing the first popup runs `_markAsSeen("add-new")` and
then `_showNextQueuedTip`, which opens a popup for the second queued copy of
"add-new".  The resulting reachable state has a popup open for a prompt that
is already in the dismissed-tips preference, so the claim is false. -/
theorem dismissed_tip_reshown_counterexample :
    ¬ (∀ st : ManagerState, Reachable tipEnvDemo tipPrefsDemo st →
        ∀ t : QueuedTip, st.shownPopup = some t →
          t.prompt ∉ st._prefs.dismissedTips) := by
  intro h
  exact h (run tipEnvDemo (initState tipPrefsDemo) tipTraceDemo).fst
    ⟨tipTraceDemo, rfl⟩ ⟨"add-new", 2, ⟨false⟩⟩ (by decide) (by decide)

/-- Claim C3 (amended): if surveying is disabled, the screen is narrow, the
`dontShowTips` preference is set, or the prompt is in the dismissed-tips set,
then queueing the tip (via `showTip` or `attachTip`, both of which delegate to
`_queueTip`) leaves the manager state unchanged and shows nothing; moreover a
prompt in the dismissed-tips preference stays dismissed forever, and queueing
it again is forever a no-op.  (A copy of the tip that was enqueued before the
dismissal may however still be shown once afterwards, which is the amendment
forced by the counterexample.) -/
theorem tip_gating (env : TipEnv) (st st' : ManagerState) (r : Nat)
    (p : BehavioralPrompt) (o : AttachOptions) :
    ((!env.survey || env.narrowScreen || st._prefs.dontShowTips
        || hasSeenTip st p) = true →
      step env st (.queueTip r p o) = (st, []))
    ∧ (p ∈ st._prefs.dismissedTips → ReachableFrom env st st' →
        p ∈ st'._prefs.dismissedTips
          ∧ step env st' (.queueTip r p o) = (st', [])) := by
  constructor
  · intro hgate
    rw [step]
    simp only [_queueTip, hgate]
    rfl
  · intro hp hreach
    obtain ⟨evs, rfl⟩ := hreach
    have hmem := dismissed_mono_run env evs st p hp
    refine ⟨hmem, ?_⟩
    rw [step]
    have hseen : hasSeenTip (run env st evs).fst p = true :=
      List.elem_iff.mpr hmem
    simp only [_queueTip, hseen]
    simp

/-- Witness for `tip_gating`: with surveying on, a wide screen and prompt "x"
already dismissed, queueing "x" again is a no-op, and "x" stays dismissed. -/
theorem tip_gating_witness :
    (step ⟨true, false⟩ (initState ⟨false, ["x"]⟩) (.queueTip 1 "x" ⟨false⟩)
        = (initState ⟨false, ["x"]⟩, []))
      ∧ "x" ∈ (initState ⟨false, ["x"]⟩)._prefs.dismissedTips :=
  ⟨(tip_gating ⟨true, false⟩ (initState ⟨false, ["x"]⟩)
      (initState ⟨false, ["x"]⟩) 1 "x" ⟨false⟩).1 (by decide),
   ((tip_gating ⟨true, false⟩ (initState ⟨false, ["x"]⟩)
      (initState ⟨false, ["x"]⟩) 1 "x" ⟨false⟩).2 (by decide) ⟨[], rfl⟩).1⟩

/-- Claim C4: a tip that passes the visibility checks is shown immediately
exactly when the queue was empty before it was enqueued (otherwise it is only
appended), and on each dismissal the head of the queue is removed (with the
whole queue when the "don't show tips" box was checked), the new head — if
any — is shown, and the dismissed prompt is recorded.  Together these give
FIFO display order gated by dismissal events. -/
theorem tips_fifo (env : TipEnv) (st : ManagerState) (r : Nat)
    (p : BehavioralPrompt) (o : AttachOptions) (d : Bool) :
    ((!env.survey || env.narrowScreen || st._prefs.dontShowTips
        || hasSeenTip st p) = false →
      (st._queuedTips = [] →
        step env st (.queueTip r p o)
          = (⟨st._prefs, [⟨p, r, o⟩], some ⟨p, r, o⟩⟩, [⟨p, r, o⟩]))
      ∧ (st._queuedTips ≠ [] →
        step env st (.queueTip r p o)
          = ({ st with _queuedTips := st._queuedTips ++ [⟨p, r, o⟩] }, [])))
    ∧ (∀ t : QueuedTip, st.shownPopup = some t →
        (step env st (.closePopup d)).fst._queuedTips
            = (if d then [] else st._queuedTips).tail
          ∧ (step env st (.closePopup d)).fst.shownPopup
            = ((if d then [] else st._queuedTips).tail).head?
          ∧ (step env st (.closePopup d)).snd
            = ((if d then [] else st._queuedTips).tail).head?.toList
          ∧ t.prompt ∈ (step env st (.closePopup d)).fst._prefs.dismissedTips) := by
  constructor
  · intro hgate
    constructor
    · intro hq
      rw [step]
      simp only [_queueTip, hgate, _showTip, hq]
      simp
    · intro hq
      rw [step]
      simp only [_queueTip, hgate]
      cases hh : st._queuedTips with
      | nil => exact absurd hh hq
      | cons x xs =>
        simp [hh, List.length_append]
  · intro t ht
    rw [step]
    simp only [closePopup, ht]
    have hdm : t.prompt ∈ (_markAsSeen
        (if d then _dontShowTips st else st) t.prompt)._prefs.dismissedTips := by
      rw [mem_markAsSeen]
      exact Or.inr rfl
    cases d with
    | true =>
      simp only [if_true] at hdm ⊢
      refine ⟨?_, ?_, ?_, ?_⟩ <;>
        simp [_showNextQueuedTip, _showTip, _markAsSeen, _dontShowTips] at hdm ⊢
      exact hdm
    | false =>
      simp only [if_false] at hdm ⊢
      cases hq : (st._queuedTips).tail with
      | nil =>
        refine ⟨?_, ?_, ?_, ?_⟩ <;>
          simp [_showNextQueuedTip, _showTip, _markAsSeen, hq] at hdm ⊢
        exact hdm
      | cons x xs =>
        refine ⟨?_, ?_, ?_, ?_⟩ <;>
          simp [_showNextQueuedTip, _showTip, _markAsSeen, hq] at hdm ⊢
        exact hdm

/-- Witness for `tips_fifo`: with a tip "a" shown and queued, queueing "b"
only appends it, and closing the popup for "a" leaves an empty queue. -/
theorem tips_fifo_witness :
    (step ⟨true, false⟩ tipStDemo (.queueTip 2 "b" ⟨false⟩)
        = ({ tipStDemo with
             _queuedTips := tipStDemo._queuedTips ++ [⟨"b", 2, ⟨false⟩⟩] }, []))
      ∧ (step ⟨true, false⟩ tipStDemo (.closePopup false)).fst._queuedTips
          = (if false then [] else tipStDemo._queuedTips).tail :=
  ⟨((tips_fifo ⟨true, false⟩ tipStDemo 2 "b" ⟨false⟩ false).1
      (by decide)).2 (by decide),
   ((tips_fifo ⟨true, false⟩ tipStDemo 2 "b" ⟨false⟩ false).2
      ⟨"a", 1, ⟨false⟩⟩ rfl).1⟩

/-- Claim C5, counterexample.  The claim says the pending queue holds at most
a single item in every reachable state; but queueing two tips while the first
popup is still open yields a reachable state whose queue has two entries. -/
theorem queue_two_items_reachable :
    ¬ (∀ st : ManagerState, Reachable tipEnvDemo tipPrefsDemo st →
        st._queuedTips.length ≤ 1) := by
  intro h
  have h2 := h (run tipEnvDemo (initState tipPrefsDemo)
      [.queueTip 1 "a" ⟨false⟩, .queueTip 2 "b" ⟨false⟩]).fst
    ⟨[.queueTip 1 "a" ⟨false⟩, .queueTip 2 "b" ⟨false⟩], rfl⟩
  exact absurd h2 (by decide)

/-- Claim C5 (amended): the pending queue may hold any number of items; what
is single is the open popup: in every reachable state the popup currently
shown is exactly the head of the queue (none when the queue is empty), so at
most one tip is displayed at a time. -/
theorem shown_is_queue_head (env : TipEnv) (prefs : BehavioralPromptPrefs)
    (st : ManagerState) (h : Reachable env prefs st) :
    st.shownPopup = st._queuedTips.head? := by
  obtain ⟨evs, rfl⟩ := h
  exact inv_run env evs (initState prefs) rfl

/-- Witness for `shown_is_queue_head` on the state reached by queueing one
tip from a fresh manager. -/
theorem shown_is_queue_head_witness :
    (run tipEnvDemo (initState tipPrefsDemo)
        [.queueTip 1 "a" ⟨false⟩]).fst.shownPopup
      = (run tipEnvDemo (initState tipPrefsDemo)
        [.queueTip 1 "a" ⟨false⟩]).fst._queuedTips.head? :=
  shown_is_queue_head tipEnvDemo tipPrefsDemo _ ⟨[.queueTip 1 "a" ⟨false⟩], rfl⟩

/-- Claim C8: closing the shown popup with the "don't show tips" box checked
sets the `dontShowTips` preference, empties the queue, closes the popup and
shows nothing; afterwards every event sequence leaves the manager unchanged
and shows nothing, so in particular no tip queued at that moment is ever
shown. -/
theorem dontShowTips_halts_tips (env : TipEnv) (st : ManagerState)
    (t : QueuedTip) (h : st.shownPopup = some t) :
    ((step env st (.closePopup true)).fst._prefs.dontShowTips = true
      ∧ (step env st (.closePopup true)).fst._queuedTips = []
      ∧ (step env st (.closePopup true)).fst.shownPopup = none
      ∧ (step env st (.closePopup true)).snd = [])
    ∧ ∀ evs : List TipEvent,
        run env (step env st (.closePopup true)).fst evs
          = ((step env st (.closePopup true)).fst, []) := by
  have hdesc : (step env st (.closePopup true)).fst._prefs.dontShowTips = true
      ∧ (step env st (.closePopup true)).fst._queuedTips = []
      ∧ (step env st (.closePopup true)).fst.shownPopup = none
      ∧ (step env st (.closePopup true)).snd = [] := by
    rw [step]
    simp only [closePopup, h]
    simp [_dontShowTips, _markAsSeen, _showNextQueuedTip, _showTip]
  refine ⟨hdesc, fun evs => ?_⟩
  exact frozen_run env evs _ hdesc.1 hdesc.2.2.1

/-- Witness for `dontShowTips_halts_tips` on a state with one shown tip,
running one further queue event after the checked close. -/
theorem dontShowTips_halts_tips_witness :
    (step tipEnvDemo tipStDemo (.closePopup true)).fst._queuedTips = []
      ∧ run tipEnvDemo (step tipEnvDemo tipStDemo (.closePopup true)).fst
          [.queueTip 3 "c" ⟨false⟩]
        = ((step tipEnvDemo tipStDemo (.closePopup true)).fst, []) :=
  ⟨(dontShowTips_halts_tips tipEnvDemo tipStDemo ⟨"a", 1, ⟨false⟩⟩ rfl).1.2.1,
   (dontShowTips_halts_tips tipEnvDemo tipStDemo ⟨"a", 1, ⟨false⟩⟩ rfl).2
     [.queueTip 3 "c" ⟨false⟩]⟩

/-- Claim C10: `_markAsSeen` is monotone — afterwards the dismissed-tips
preference contains the marked prompt and everything it contained before —
and idempotent on the dismissed set: marking an already-dismissed prompt
leaves the set of dismissed tips unchanged. -/
theorem markAsSeen_monotone_idempotent (st : ManagerState)
    (p q : BehavioralPrompt) :
    (q ∈ (_markAsSeen st p)._prefs.dismissedTips
        ↔ (q ∈ st._prefs.dismissedTips ∨ q = p))
    ∧ (p ∈ st._prefs.dismissedTips →
        (q ∈ (_markAsSeen st p)._prefs.dismissedTips
          ↔ q ∈ st._prefs.dismissedTips)) := by
  refine ⟨mem_markAsSeen st p q, fun hp => ?_⟩
  rw [mem_markAsSeen]
  constructor
  · rintro (hm | rfl)
    · exact hm
    · exact hp
  · exact Or.inl

/-- Witness for `markAsSeen_monotone_idempotent` with "a" already dismissed:
the dismissed set is unchanged for the probe "b". -/
theorem markAsSeen_monotone_idempotent_witness :
    "b" ∈ (_markAsSeen ⟨⟨false, ["a"]⟩, [], none⟩ "a")._prefs.dismissedTips
      ↔ "b" ∈ (⟨⟨false, ["a"]⟩, [], none⟩ : ManagerState)._prefs.dismissedTips :=
  (markAsSeen_monotone_idempotent ⟨⟨false, ["a"]⟩, [], none⟩ "a" "b").2
    (by decide)

end BehavioralPromptsManager

/-! ## Part 2: the REST API client

`UserAPIImpl`, `DocWorkerAPIImpl` and `DocAPIImpl` build URLs and bodies and
hand them to the request machinery of their base class.  Each method is
embedded as the list of HTTP requests a call issues.  A JSON body is kept as
the JavaScript value passed to `JSON.stringify`, modelled by the `Json`
inductive below, so "the body is the JSON encoding of v" is stated as
`body = RequestBody.json v`. -/

/-- JavaScript values passed to `JSON.stringify`.  An object is a list of
key/value fields in insertion order; a field whose value is `undefined` is
omitted by `JSON.stringify`, which the embedding reflects by omitting the
field from the list. -/
inductive Json where
  | null
  | bool (b : Bool)
  | num (n : Int)
  | str (s : String)
  | arr (elems : List Json)
  | obj (fields : List (String × Json))

/-- The body of an HTTP request: absent, a JSON-encoded value, or multipart
form data (a list of field-name/content pairs; filename metadata is not
modelled). -/
inductive RequestBody where
  | empty
  | json (value : Json)
  | form (parts : List (String × String))

/-- Whether the body is a JSON-encoded value. -/
def RequestBody.isJsonBody : RequestBody → Bool
  | .json _ => true
  | _ => false

/-- One HTTP request: method, full URL, and body. -/
structure HttpRequest where
  method : String
  url : String
  body : RequestBody

/-- Modelled from the spec: `BaseAPI.request`, `BaseAPI.requestJson`,
`BaseAPI.requestAxios` and `BaseAPI.fetch` live in app/common/BaseAPI, which
is not part of the excerpt.  Per the spec the client is "a direct one-to-one
mapping from method calls to HTTP requests", with "no ... concurrency
coordination, caching, retry logic", so each call to the machinery issues
exactly one HTTP request with the URL, method and body the caller supplies
(method defaulting to GET when no options are given, as with `fetch`).  Every
client method below is embedded as the list of requests it hands to this
function. -/
def BaseAPI.request (req : HttpRequest) : List HttpRequest := [req]

/-- The slice of `IOptions` (declared in app/common/BaseAPI, outside the
excerpt) that the excerpted code reads: `headers` and `extraParameters`. -/
structure IOptions where
  headers : Option (List (String × String))
  extraParameters : Option (List (String × String))
  deriving DecidableEq

/-- Ambient context of URL construction: `isClient()` and
`addCurrentOrgToPath` (app/common/gristUrls and app/common/urlUtils, outside
the excerpt), and the percent-encoding applied by `URL.searchParams` (a
browser builtin, used only by `copyDoc`). -/
structure FetchEnv where
  isClient : Bool
  addCurrentOrgToPath : String → String
  searchParamEncode : String → String

/-- `base.replace(/\/$/, '')`: drop one trailing slash. -/
def stripTrailingSlash (s : String) : String :=
  if s.endsWith "/" then s.dropRight 1 else s

/-- `_urlWithOrg`: on the client, prefix the current org; otherwise strip a
trailing slash. -/
def urlWithOrg (env : FetchEnv) (base : String) : String :=
  if env.isClient then env.addCurrentOrgToPath base else stripTrailingSlash base

/-- An id that is `number|string` in the source; template interpolation turns
a number into its decimal string. -/
inductive ResourceId where
  | num (n : Int)
  | str (s : String)

/-- String interpolation of a `number|string` id. -/
def ResourceId.interp : ResourceId → String
  | .num n => toString n
  | .str s => s

/-- The state of a `UserAPIImpl`: the constructor arguments `_homeUrl` and
`_options`. -/
structure UserAPIImpl where
  _homeUrl : String
  _options : IOptions
  deriving DecidableEq

namespace UserAPIImpl

/-- The `_url` getter: recomputed from `_homeUrl` on every call. -/
def _url (env : FetchEnv) (api : UserAPIImpl) : String :=
  urlWithOrg env api._homeUrl

/-- `getBaseUrl`: the prefix for all the endpoints this object wraps. -/
def getBaseUrl (env : FetchEnv) (api : UserAPIImpl) : String :=
  _url env api

/-- `forRemoved`: a new `UserAPIImpl` on the same home URL whose options are
the spread of the caller's options with `extraParameters` bound to the
one-entry map `showRemoved=1`. -/
def forRemoved (api : UserAPIImpl) : UserAPIImpl :=
  { _homeUrl := api._homeUrl,
    _options := { api._options with
      extraParameters := some [("showRemoved", "1")] } }

def getSessionActive (env : FetchEnv) (api : UserAPIImpl) : List HttpRequest :=
  BaseAPI.request ⟨"GET", _url env api ++ "/api/session/access/active", .empty⟩

def setSessionActive (env : FetchEnv) (api : UserAPIImpl)
    (email : String) : List HttpRequest :=
  BaseAPI.request ⟨"POST", _url env api ++ "/api/session/access/active",
    .json (.obj [("email", .str email)])⟩

def getSessionAll (env : FetchEnv) (api : UserAPIImpl) : List HttpRequest :=
  BaseAPI.request ⟨"GET", _url env api ++ "/api/session/access/all", .empty⟩

def getOrgs (env : FetchEnv) (api : UserAPIImpl)
    (merged : Bool) : List HttpRequest :=
  BaseAPI.request ⟨"GET",
    _url env api ++ "/api/orgs?merged=" ++ (if merged then "1" else "0"),
    .empty⟩

def getWorkspace (env : FetchEnv) (api : UserAPIImpl)
    (workspaceId : Int) : List HttpRequest :=
  BaseAPI.request ⟨"GET",
    _url env api ++ "/api/workspaces/" ++ toString workspaceId, .empty⟩

def getOrg (env : FetchEnv) (api : UserAPIImpl)
    (orgId : ResourceId) : List HttpRequest :=
  BaseAPI.request ⟨"GET", _url env api ++ "/api/orgs/" ++ orgId.interp, .empty⟩

def getOrgWorkspaces (env : FetchEnv) (api : UserAPIImpl)
    (orgId : ResourceId) : List HttpRequest :=
  BaseAPI.request ⟨"GET",
    _url env api ++ "/api/orgs/" ++ orgId.interp
      ++ "/workspaces?includeSupport=1",
    .empty⟩

def getDoc (env : FetchEnv) (api : UserAPIImpl)
    (docId : String) : List HttpRequest :=
  BaseAPI.request ⟨"GET", _url env api ++ "/api/docs/" ++ docId, .empty⟩

def newOrg (env : FetchEnv) (api : UserAPIImpl)
    (props : Json) : List HttpRequest :=
  BaseAPI.request ⟨"POST", _url env api ++ "/api/orgs", .json props⟩

def newWorkspace (env : FetchEnv) (api : UserAPIImpl)
    (props : Json) (orgId : ResourceId) : List HttpRequest :=
  BaseAPI.request ⟨"POST",
    _url env api ++ "/api/orgs/" ++ orgId.interp ++ "/workspaces",
    .json props⟩

def newDoc (env : FetchEnv) (api : UserAPIImpl)
    (props : Json) (workspaceId : Int) : List HttpRequest :=
  BaseAPI.request ⟨"POST",
    _url env api ++ "/api/workspaces/" ++ toString workspaceId ++ "/docs",
    .json props⟩

def newUnsavedDoc (env : FetchEnv) (api : UserAPIImpl)
    (timezone : Option String) : List HttpRequest :=
  BaseAPI.request ⟨"POST", _url env api ++ "/api/docs",
    .json (.obj (match timezone with
      | some tz => [("timezone", .str tz)]
      | none => []))⟩

def renameOrg (env : FetchEnv) (api : UserAPIImpl)
    (orgId : ResourceId) (name : String) : List HttpRequest :=
  BaseAPI.request ⟨"PATCH", _url env api ++ "/api/orgs/" ++ orgId.interp,
    .json (.obj [("name", .str name)])⟩

def renameWorkspace (env : FetchEnv) (api : UserAPIImpl)
    (workspaceId : Int) (name : String) : List HttpRequest :=
  BaseAPI.request ⟨"PATCH",
    _url env api ++ "/api/workspaces/" ++ toString workspaceId,
    .json (.obj [("name", .str name)])⟩

def updateDoc (env : FetchEnv) (api : UserAPIImpl)
    (docId : String) (props : Json) : List HttpRequest :=
  BaseAPI.request ⟨"PATCH", _url env api ++ "/api/docs/" ++ docId,
    .json props⟩

/-- `renameDoc` delegates to `updateDoc` with the props object `\x7b name \x7d`. -/
def renameDoc (env : FetchEnv) (api : UserAPIImpl)
    (docId : String) (name : String) : List HttpRequest :=
  updateDoc env api docId (.obj [("name", .str name)])

def deleteOrg (env : FetchEnv) (api : UserAPIImpl)
    (orgId : ResourceId) : List HttpRequest :=
  BaseAPI.request ⟨"DELETE", _url env api ++ "/api/orgs/" ++ orgId.interp,
    .empty⟩

def deleteWorkspace (env : FetchEnv) (api : UserAPIImpl)
    (workspaceId : Int) : List HttpRequest :=
  BaseAPI.request ⟨"DELETE",
    _url env api ++ "/api/workspaces/" ++ toString workspaceId, .empty⟩

def softDeleteWorkspace (env : FetchEnv) (api : UserAPIImpl)
    (workspaceId : Int) : List HttpRequest :=
  BaseAPI.request ⟨"POST",
    _url env api ++ "/api/workspaces/" ++ toString workspaceId ++ "/remove",
    .empty⟩

def undeleteWorkspace (env : FetchEnv) (api : UserAPIImpl)
    (workspaceId : Int) : List HttpRequest :=
  BaseAPI.request ⟨"POST",
    _url env api ++ "/api/workspaces/" ++ toString workspaceId ++ "/unremove",
    .empty⟩

def deleteDoc (env : FetchEnv) (api : UserAPIImpl)
    (docId : String) : List HttpRequest :=
  BaseAPI.request ⟨"DELETE", _url env api ++ "/api/docs/" ++ docId, .empty⟩

def softDeleteDoc (env : FetchEnv) (api : UserAPIImpl)
    (docId : String) : List HttpRequest :=
  BaseAPI.request ⟨"POST",
    _url env api ++ "/api/docs/" ++ docId ++ "/remove", .empty⟩

def undeleteDoc (env : FetchEnv) (api : UserAPIImpl)
    (docId : String) : List HttpRequest :=
  BaseAPI.request ⟨"POST",
    _url env api ++ "/api/docs/" ++ docId ++ "/unremove", .empty⟩

def updateOrgPermissions (env : FetchEnv) (api : UserAPIImpl)
    (orgId : ResourceId) (delta : Json) : List HttpRequest :=
  BaseAPI.request ⟨"PATCH",
    _url env api ++ "/api/orgs/" ++ orgId.interp ++ "/access",
    .json (.obj [("delta", delta)])⟩

def updateWorkspacePermissions (env : FetchEnv) (api : UserAPIImpl)
    (workspaceId : Int) (delta : Json) : List HttpRequest :=
  BaseAPI.request ⟨"PATCH",
    _url env api ++ "/api/workspaces/" ++ toString workspaceId ++ "/access",
    .json (.obj [("delta", delta)])⟩

def updateDocPermissions (env : FetchEnv) (api : UserAPIImpl)
    (docId : String) (delta : Json) : List HttpRequest :=
  BaseAPI.request ⟨"PATCH",
    _url env api ++ "/api/docs/" ++ docId ++ "/access",
    .json (.obj [("delta", delta)])⟩

def getOrgAccess (env : FetchEnv) (api : UserAPIImpl)
    (orgId : ResourceId) : List HttpRequest :=
  BaseAPI.request ⟨"GET",
    _url env api ++ "/api/orgs/" ++ orgId.interp ++ "/access", .empty⟩

def getWorkspaceAccess (env : FetchEnv) (api : UserAPIImpl)
    (workspaceId : Int) : List HttpRequest :=
  BaseAPI.request ⟨"GET",
    _url env api ++ "/api/workspaces/" ++ toString workspaceId ++ "/access",
    .empty⟩

def getDocAccess (env : FetchEnv) (api : UserAPIImpl)
    (docId : String) : List HttpRequest :=
  BaseAPI.request ⟨"GET",
    _url env api ++ "/api/docs/" ++ docId ++ "/access", .empty⟩

def pinDoc (env : FetchEnv) (api : UserAPIImpl)
    (docId : String) : List HttpRequest :=
  BaseAPI.request ⟨"PATCH",
    _url env api ++ "/api/docs/" ++ docId ++ "/pin", .empty⟩

def unpinDoc (env : FetchEnv) (api : UserAPIImpl)
    (docId : String) : List HttpRequest :=
  BaseAPI.request ⟨"PATCH",
    _url env api ++ "/api/docs/" ++ docId ++ "/unpin", .empty⟩

def moveDoc (env : FetchEnv) (api : UserAPIImpl)
    (docId : String) (workspaceId : Int) : List HttpRequest :=
  BaseAPI.request ⟨"PATCH",
    _url env api ++ "/api/docs/" ++ docId ++ "/move",
    .json (.obj [("workspace", .num workspaceId)])⟩

def getUserProfile (env : FetchEnv) (api : UserAPIImpl) : List HttpRequest :=
  BaseAPI.request ⟨"GET", _url env api ++ "/api/profile/user", .empty⟩

def updateUserName (env : FetchEnv) (api : UserAPIImpl)
    (name : String) : List HttpRequest :=
  BaseAPI.request ⟨"POST", _url env api ++ "/api/profile/user/name",
    .json (.obj [("name", .str name)])⟩

def getWorker (env : FetchEnv) (api : UserAPIImpl)
    (key : String) : List HttpRequest :=
  BaseAPI.request ⟨"GET", _url env api ++ "/api/worker/" ++ key, .empty⟩

/-- `getWorkerAPI` issues the single `getWorker` request; the returned
`DocWorkerAPIImpl` is built from the response and issues nothing itself. -/
def getWorkerAPI (env : FetchEnv) (api : UserAPIImpl)
    (key : String) : List HttpRequest :=
  getWorker env api key

def fetchApiKey (env : FetchEnv) (api : UserAPIImpl) : List HttpRequest :=
  BaseAPI.request ⟨"GET", _url env api ++ "/api/profile/apiKey", .empty⟩

def createApiKey (env : FetchEnv) (api : UserAPIImpl) : List HttpRequest :=
  BaseAPI.request ⟨"POST", _url env api ++ "/api/profile/apiKey", .empty⟩

def deleteApiKey (env : FetchEnv) (api : UserAPIImpl) : List HttpRequest :=
  BaseAPI.request ⟨"DELETE", _url env api ++ "/api/profile/apiKey", .empty⟩

def applyUserActions (env : FetchEnv) (api : UserAPIImpl)
    (docId : String) (actions : List Json) : List HttpRequest :=
  BaseAPI.request ⟨"POST", _url env api ++ "/api/docs/" ++ docId ++ "/apply",
    .json (.arr actions)⟩

def importUnsavedDoc (env : FetchEnv) (api : UserAPIImpl)
    (material : String) (timezone : Option String) : List HttpRequest :=
  BaseAPI.request ⟨"POST", _url env api ++ "/api/docs",
    .form ([("upload", material)] ++ (match timezone with
      | some tz => [("timezone", tz)]
      | none => []))⟩

def deleteUser (env : FetchEnv) (api : UserAPIImpl)
    (userId : Int) (name : String) : List HttpRequest :=
  BaseAPI.request ⟨"DELETE", _url env api ++ "/api/users/" ++ toString userId,
    .json (.obj [("name", .str name)])⟩

end UserAPIImpl

/-- The state of a `DocWorkerAPIImpl`: the `url` and `_options` constructor
arguments. -/
structure DocWorkerAPIImpl where
  url : String
  _options : IOptions
  deriving DecidableEq

namespace DocWorkerAPIImpl

def importDocToWorkspace (w : DocWorkerAPIImpl) (uploadId : Int)
    (workspaceId : Int) (browserSettings : Option Json) : List HttpRequest :=
  BaseAPI.request ⟨"POST",
    w.url ++ "/api/workspaces/" ++ toString workspaceId ++ "/import",
    .json (.obj ([("uploadId", .num uploadId)] ++ (match browserSettings with
      | some bs => [("browserSettings", bs)]
      | none => [])))⟩

def upload (w : DocWorkerAPIImpl) (material : String) : List HttpRequest :=
  BaseAPI.request ⟨"POST", w.url ++ "/uploads",
    .form [("upload", material)]⟩

/-- The single GET request `downloadDoc` issues. -/
def downloadDocRequest (w : DocWorkerAPIImpl) (docId : String)
    (template : Bool) : HttpRequest :=
  ⟨"GET",
   w.url ++ "/download?doc=" ++ docId
     ++ (if template then "&template=1" else ""),
   .empty⟩

/-- The HTTP response seen by `downloadDoc`: the `ok` flag and the body
text. -/
structure HttpResponse where
  ok : Bool
  text : String
  deriving DecidableEq

/-- `downloadDoc`: issue the single GET request; if the response is not ok,
reject with an `Error` whose message is the response body text, otherwise
return the response.  The first component is the list of requests issued. -/
def downloadDoc (w : DocWorkerAPIImpl) (docId : String) (template : Bool)
    (response : HttpResponse) : List HttpRequest × Except String HttpResponse :=
  (BaseAPI.request (downloadDocRequest w docId template),
   if response.ok then .ok response else .error response.text)

def copyDoc (env : FetchEnv) (w : DocWorkerAPIImpl) (docId : String)
    (template : Bool) (name : Option String) : List HttpRequest :=
  BaseAPI.request ⟨"POST",
    w.url ++ "/copy?doc=" ++ docId
      ++ (if template then "&template=1" else "")
      ++ (match name with
        | some n => if n = "" then "" else "&name=" ++ env.searchParamEncode n
        | none => ""),
    .empty⟩

end DocWorkerAPIImpl

/-- The state of a `DocAPIImpl`: the `_url` computed by the constructor, the
`docId`, and the options. -/
structure DocAPIImpl where
  _url : String
  docId : String
  _options : IOptions
  deriving DecidableEq

namespace DocAPIImpl

/-- The `DocAPIImpl` constructor: `_url` is `url + "/api/docs/" + docId`. -/
def make (url : String) (docId : String) (options : IOptions) : DocAPIImpl :=
  ⟨url ++ "/api/docs/" ++ docId, docId, options⟩

def getRows (d : DocAPIImpl) (tableId : String) : List HttpRequest :=
  BaseAPI.request ⟨"GET", d._url ++ "/tables/" ++ tableId ++ "/data", .empty⟩

def updateRows (d : DocAPIImpl) (tableId : String)
    (changes : Json) : List HttpRequest :=
  BaseAPI.request ⟨"PATCH", d._url ++ "/tables/" ++ tableId ++ "/data",
    .json changes⟩

def addRows (d : DocAPIImpl) (tableId : String)
    (additions : Json) : List HttpRequest :=
  BaseAPI.request ⟨"POST", d._url ++ "/tables/" ++ tableId ++ "/data",
    .json additions⟩

def replace (d : DocAPIImpl) (source : Json) : List HttpRequest :=
  BaseAPI.request ⟨"POST", d._url ++ "/replace", .json source⟩

def getSnapshots (d : DocAPIImpl) : List HttpRequest :=
  BaseAPI.request ⟨"GET", d._url ++ "/snapshots", .empty⟩

def forceReload (d : DocAPIImpl) : List HttpRequest :=
  BaseAPI.request ⟨"POST", d._url ++ "/force-reload", .empty⟩

def compareState (d : DocAPIImpl) (remoteDocId : String) : List HttpRequest :=
  BaseAPI.request ⟨"GET", d._url ++ "/compare/" ++ remoteDocId, .empty⟩

end DocAPIImpl

namespace UserAPIImpl

/-- `getDocAPI`: build a `DocAPIImpl` on this object's URL; issues no
request. -/
def getDocAPI (env : FetchEnv) (api : UserAPIImpl)
    (docId : String) : DocAPIImpl :=
  DocAPIImpl.make (_url env api) docId api._options

/-- `getTable`: shortcut for `getDocAPI(docId).getRows(tableName)`. -/
def getTable (env : FetchEnv) (api : UserAPIImpl)
    (docId : String) (tableName : String) : List HttpRequest :=
  (getDocAPI env api docId).getRows tableName

end UserAPIImpl

/-- One call to a request-issuing method of `UserAPIImpl`,
`DocWorkerAPIImpl` or `DocAPIImpl`, with its arguments.  The methods that
issue no request (`forRemoved`, `getBillingAPI`, `getDocAPI`, `getBaseUrl`)
are not calls in this sense. -/
inductive ApiCall where
  | getSessionActive
  | setSessionActive (email : String)
  | getSessionAll
  | getOrgs (merged : Bool)
  | getWorkspace (workspaceId : Int)
  | getOrg (orgId : ResourceId)
  | getOrgWorkspaces (orgId : ResourceId)
  | getDoc (docId : String)
  | newOrg (props : Json)
  | newWorkspace (props : Json) (orgId : ResourceId)
  | newDoc (props : Json) (workspaceId : Int)
  | newUnsavedDoc (timezone : Option String)
  | renameOrg (orgId : ResourceId) (name : String)
  | renameWorkspace (workspaceId : Int) (name : String)
  | renameDoc (docId : String) (name : String)
  | updateDoc (docId : String) (props : Json)
  | deleteOrg (orgId : ResourceId)
  | deleteWorkspace (workspaceId : Int)
  | softDeleteWorkspace (workspaceId : Int)
  | undeleteWorkspace (workspaceId : Int)
  | deleteDoc (docId : String)
  | softDeleteDoc (docId : String)
  | undeleteDoc (docId : String)
  | updateOrgPermissions (orgId : ResourceId) (delta : Json)
  | updateWorkspacePermissions (workspaceId : Int) (delta : Json)
  | updateDocPermissions (docId : String) (delta : Json)
  | getOrgAccess (orgId : ResourceId)
  | getWorkspaceAccess (workspaceId : Int)
  | getDocAccess (docId : String)
  | pinDoc (docId : String)
  | unpinDoc (docId : String)
  | moveDoc (docId : String) (workspaceId : Int)
  | getUserProfile
  | updateUserName (name : String)
  | getWorker (key : String)
  | getWorkerAPI (key : String)
  | fetchApiKey
  | createApiKey
  | deleteApiKey
  | getTable (docId : String) (tableName : String)
  | applyUserActions (docId : String) (actions : List Json)
  | importUnsavedDoc (material : String) (timezone : Option String)
  | deleteUser (userId : Int) (name : String)
  | importDocToWorkspace (uploadId : Int) (workspaceId : Int)
      (browserSettings : Option Json)
  | upload (material : String)
  | downloadDoc (docId : String) (template : Bool)
  | copyDoc (docId : String) (template : Bool) (name : Option String)
  | getRows (tableId : String)
  | updateRows (tableId : String) (changes : Json)
  | addRows (tableId : String) (additions : Json)
  | replace (source : Json)
  | getSnapshots
  | forceReload
  | compareState (remoteDocId : String)

/-- The receivers the calls are made on: one instance of each client class. -/
structure Receivers where
  user : UserAPIImpl
  worker : DocWorkerAPIImpl
  doc : DocAPIImpl

/-- The requests issued by one call to a request-issuing method. -/
def requestsOf (env : FetchEnv) (rc : Receivers) : ApiCall → List HttpRequest
  | .getSessionActive => UserAPIImpl.getSessionActive env rc.user
  | .setSessionActive email => UserAPIImpl.setSessionActive env rc.user email
  | .getSessionAll => UserAPIImpl.getSessionAll env rc.user
  | .getOrgs merged => UserAPIImpl.getOrgs env rc.user merged
  | .getWorkspace wsId => UserAPIImpl.getWorkspace env rc.user wsId
  | .getOrg orgId => UserAPIImpl.getOrg env rc.user orgId
  | .getOrgWorkspaces orgId => UserAPIImpl.getOrgWorkspaces env rc.user orgId
  | .getDoc docId => UserAPIImpl.getDoc env rc.user docId
  | .newOrg props => UserAPIImpl.newOrg env rc.user props
  | .newWorkspace props orgId => UserAPIImpl.newWorkspace env rc.user props orgId
  | .newDoc props wsId => UserAPIImpl.newDoc env rc.user props wsId
  | .newUnsavedDoc tz => UserAPIImpl.newUnsavedDoc env rc.user tz
  | .renameOrg orgId name => UserAPIImpl.renameOrg env rc.user orgId name
  | .renameWorkspace wsId name =>
      UserAPIImpl.renameWorkspace env rc.user wsId name
  | .renameDoc docId name => UserAPIImpl.renameDoc env rc.user docId name
  | .updateDoc docId props => UserAPIImpl.updateDoc env rc.user docId props
  | .deleteOrg orgId => UserAPIImpl.deleteOrg env rc.user orgId
  | .deleteWorkspace wsId => UserAPIImpl.deleteWorkspace env rc.user wsId
  | .softDeleteWorkspace wsId =>
      UserAPIImpl.softDeleteWorkspace env rc.user wsId
  | .undeleteWorkspace wsId => UserAPIImpl.undeleteWorkspace env rc.user wsId
  | .deleteDoc docId => UserAPIImpl.deleteDoc env rc.user docId
  | .softDeleteDoc docId => UserAPIImpl.softDeleteDoc env rc.user docId
  | .undeleteDoc docId => UserAPIImpl.undeleteDoc env rc.user docId
  | .updateOrgPermissions orgId delta =>
      UserAPIImpl.updateOrgPermissions env rc.user orgId delta
  | .updateWorkspacePermissions wsId delta =>
      UserAPIImpl.updateWorkspacePermissions env rc.user wsId delta
  | .updateDocPermissions docId delta =>
      UserAPIImpl.updateDocPermissions env rc.user docId delta
  | .getOrgAccess orgId => UserAPIImpl.getOrgAccess env rc.user orgId
  | .getWorkspaceAccess wsId =>
      UserAPIImpl.getWorkspaceAccess env rc.user wsId
  | .getDocAccess docId => UserAPIImpl.getDocAccess env rc.user docId
  | .pinDoc docId => UserAPIImpl.pinDoc env rc.user docId
  | .unpinDoc docId => UserAPIImpl.unpinDoc env rc.user docId
  | .moveDoc docId wsId => UserAPIImpl.moveDoc env rc.user docId wsId
  | .getUserProfile => UserAPIImpl.getUserProfile env rc.user
  | .updateUserName name => UserAPIImpl.updateUserName env rc.user name
  | .getWorker key => UserAPIImpl.getWorker env rc.user key
  | .getWorkerAPI key => UserAPIImpl.getWorkerAPI env rc.user key
  | .fetchApiKey => UserAPIImpl.fetchApiKey env rc.user
  | .createApiKey => UserAPIImpl.createApiKey env rc.user
  | .deleteApiKey => UserAPIImpl.deleteApiKey env rc.user
  | .getTable docId tableName =>
      UserAPIImpl.getTable env rc.user docId tableName
  | .applyUserActions docId actions =>
      UserAPIImpl.applyUserActions env rc.user docId actions
  | .importUnsavedDoc material tz =>
      UserAPIImpl.importUnsavedDoc env rc.user material tz
  | .deleteUser userId name => UserAPIImpl.deleteUser env rc.user userId name
  | .importDocToWorkspace uploadId wsId bs =>
      DocWorkerAPIImpl.importDocToWorkspace rc.worker uploadId wsId bs
  | .upload material => DocWorkerAPIImpl.upload rc.worker material
  | .downloadDoc docId template =>
      BaseAPI.request (DocWorkerAPIImpl.downloadDocRequest rc.worker docId template)
  | .copyDoc docId template name =>
      DocWorkerAPIImpl.copyDoc env rc.worker docId template name
  | .getRows tableId => DocAPIImpl.getRows rc.doc tableId
  | .updateRows tableId changes =>
      DocAPIImpl.updateRows rc.doc tableId changes
  | .addRows tableId additions => DocAPIImpl.addRows rc.doc tableId additions
  | .replace source => DocAPIImpl.replace rc.doc source
  | .getSnapshots => DocAPIImpl.getSnapshots rc.doc
  | .forceReload => DocAPIImpl.forceReload rc.doc
  | .compareState remoteDocId => DocAPIImpl.compareState rc.doc remoteDocId

/-! ### Demo values used by API witnesses and counterexamples -/

/-- A server-side environment with identity org-path and encoding
functions. -/
def fetchEnvDemo : FetchEnv := ⟨false, fun s => s, fun s => s⟩

/-- Empty client options. -/
def noOptions : IOptions := ⟨Option.none, Option.none⟩

/-- One receiver of each client class. -/
def receiversDemo : Receivers :=
  ⟨⟨"https://home", noOptions⟩, ⟨"https://worker", noOptions⟩,
   DocAPIImpl.make "https://home" "doc1" noOptions⟩

/-! ### Claim theorems about the API client -/

/-- Claim C1: for every `docId` and `name`, `UserAPIImpl.renameDoc(docId,
name)` issues exactly one HTTP PATCH request to `baseUrl/api/docs/docId`
(where `baseUrl` is `getBaseUrl()`) whose body is the JSON encoding of the
object `\x7b name \x7d`. -/
theorem renameDoc_issues_one_patch (env : FetchEnv) (api : UserAPIImpl)
    (docId name : String) :
    UserAPIImpl.renameDoc env api docId name
      = [⟨"PATCH", UserAPIImpl.getBaseUrl env api ++ "/api/docs/" ++ docId,
          .json (.obj [("name", .str name)])⟩] := rfl

/-- Claim C2: `getOrg(orgId)` issues a GET to `baseUrl/api/orgs/orgId`;
`updateDoc(docId, props)` issues a PATCH to `baseUrl/api/docs/docId` with the
JSON encoding of `props` as body; `applyUserActions(docId, actions)` issues a
POST to `baseUrl/api/docs/docId/apply` with the JSON encoding of `actions` as
body. -/
theorem client_endpoint_map (env : FetchEnv) (api : UserAPIImpl)
    (orgId : ResourceId) (docId : String) (props : Json)
    (actions : List Json) :
    UserAPIImpl.getOrg env api orgId
        = [⟨"GET",
            UserAPIImpl.getBaseUrl env api ++ "/api/orgs/" ++ orgId.interp,
            .empty⟩]
      ∧ UserAPIImpl.updateDoc env api docId props
        = [⟨"PATCH", UserAPIImpl.getBaseUrl env api ++ "/api/docs/" ++ docId,
            .json props⟩]
      ∧ UserAPIImpl.applyUserActions env api docId actions
        = [⟨"POST",
            UserAPIImpl.getBaseUrl env api ++ "/api/docs/" ++ docId ++ "/apply",
            .json (.arr actions)⟩] :=
  ⟨rfl, rfl, rfl⟩

/-- Claim C6: if the response to `DocWorkerAPIImpl.downloadDoc(docId)` is not
ok, the operation rejects with an `Error` whose message equals the response
body text, after issuing exactly the one GET request and without any retry. -/
theorem downloadDoc_error_passthrough (w : DocWorkerAPIImpl) (docId : String)
    (template : Bool) (resp : DocWorkerAPIImpl.HttpResponse)
    (h : resp.ok = false) :
    DocWorkerAPIImpl.downloadDoc w docId template resp
      = ([DocWorkerAPIImpl.downloadDocRequest w docId template],
         .error resp.text) := by
  simp [DocWorkerAPIImpl.downloadDoc, BaseAPI.request, h]

/-- Witness for `downloadDoc_error_passthrough` on a concrete failing
response. -/
theorem downloadDoc_error_passthrough_witness :
    DocWorkerAPIImpl.downloadDoc ⟨"https://worker", noOptions⟩ "doc1" false
        ⟨false, "access denied"⟩
      = ([DocWorkerAPIImpl.downloadDocRequest ⟨"https://worker", noOptions⟩
            "doc1" false],
         .error "access denied") :=
  downloadDoc_error_passthrough ⟨"https://worker", noOptions⟩ "doc1" false
    ⟨false, "access denied"⟩ rfl

/-- Claim C7, counterexample.  The claim says every request-issuing method
call's request body is the direct JSON encoding of the method's arguments;
but `upload` (like `importUnsavedDoc`) sends multipart form data, not a JSON
encoding, and GET/DELETE-style calls send no body at all.  Concretely, the
single request of `upload("contents")` has a body that is not `json v` for
any value `v`. -/
theorem upload_body_not_json :
    ¬ (∀ r ∈ requestsOf fetchEnvDemo receiversDemo (.upload "contents"),
        ∃ v : Json, r.body = RequestBody.json v) := by
  intro h
  obtain ⟨v, hv⟩ :=
    h ⟨"POST", "https://worker/uploads", .form [("upload", "contents")]⟩
      (List.mem_singleton.mpr rfl)
  exact RequestBody.noConfusion hv

/-- The two methods that send multipart form data: `upload` and
`importUnsavedDoc`. -/
def usesFormData : ApiCall → Bool
  | .importUnsavedDoc _ _ => true
  | .upload _ => true
  | _ => false

/-- The body clause of the amended claim C7, following its words: a request
body is multipart form data only when the call is one of the two upload
methods; every other body is absent or a JSON-encoded value. -/
def bodyShapeOk (c : ApiCall) (r : HttpRequest) : Bool :=
  match r.body with
  | .form _ => usesFormData c
  | _ => true

/-- Claim C7 (amended): every call to a request-issuing method of
`UserAPIImpl`, `DocWorkerAPIImpl` or `DocAPIImpl` issues exactly one HTTP
request — no retries, no extra coordinated requests — and multipart form
data appears only in the two upload methods (`upload`,
`importUnsavedDoc`): every other request's body is absent or a JSON-encoded
value (whether the call carries a body does not follow the HTTP verb:
`deleteUser` is a DELETE that sends the JSON body `\x7b name \x7d`).  The
request list is the value of the function `requestsOf` of the environment,
the receiver and the call's arguments alone, so caching or cross-call
coordination is absent by construction. -/
theorem one_request_per_call (env : FetchEnv) (rc : Receivers) (c : ApiCall) :
    (requestsOf env rc c).length = 1
      ∧ (requestsOf env rc c).all (bodyShapeOk c) = true := by
  cases c <;> exact ⟨rfl, rfl⟩

/-- A `UserAPIImpl` whose options already carry an extra query parameter. -/
def apiWithParams : UserAPIImpl :=
  ⟨"https://home", ⟨Option.none, some [("foo", "2")]⟩⟩

/-- Claim C9, counterexample.  The claim says `forRemoved()` extends the
caller's options with the extra query parameter `showRemoved=1`; but the
spread in the source replaces the whole `extraParameters` map, so a
pre-existing parameter `foo=2` is dropped rather than extended. -/
theorem forRemoved_drops_existing_params :
    ¬ (("foo", "2") ∈
        ((UserAPIImpl.forRemoved apiWithParams)._options.extraParameters.getD
          [])) := by
  decide

/-- Claim C9 (amended): `forRemoved()` returns a new `UserAPIImpl` with the
same home URL, with every other option field preserved, and with
`extraParameters` replaced by the one-entry map `showRemoved=1` (existing
extra parameters are dropped, not extended); the original instance is a value
that is left unchanged. -/
theorem forRemoved_spec (api : UserAPIImpl) :
    (UserAPIImpl.forRemoved api)._homeUrl = api._homeUrl
      ∧ (UserAPIImpl.forRemoved api)._options.headers = api._options.headers
      ∧ (UserAPIImpl.forRemoved api)._options.extraParameters
        = some [("showRemoved", "1")] :=
  ⟨rfl, rfl, rfl⟩

end Grist
